import Mathlib

/-!
Shallow embedding of the go-web HTTP framework core (package goweb):
the per-request Context, the JSON response envelope, the middleware
composition performed by Group.wrapHandler at route registration, the
built-in RecoverMiddleware, and route registration via Group.Route.

Go panics are modelled as an explicit abnormal result carrying the
panic message together with the Context as mutated so far, since a Go
panic does not undo side effects already performed on the shared
Context.  The application logger is modelled as a per-request log list
on the Context: what matters for the claims is which messages are
emitted while one request is handled.
-/

namespace GoWeb

/-- JSON values, the codomain of encoding/json as used by Context.JSON. -/
inductive Json where
  | null : Json
  | bool : Bool → Json
  | num : Int → Json
  | str : String → Json
  | arr : List Json → Json
  | obj : List (String × Json) → Json


mutual

/-- Compact serialization of a JSON value, mirroring encoding/json
output for values whose strings contain no characters that need
escaping (all strings relevant to the claims are of this form). -/
def Json.render : Json → String
  | .null => "null"
  | .bool true => "true"
  | .bool false => "false"
  | .num n => toString n
  | .str s => "\"" ++ s ++ "\""
  | .arr xs => "[" ++ Json.renderArr xs ++ "]"
  | .obj fs => "\x7b" ++ Json.renderObj fs ++ "\x7d"

/-- Comma-separated rendering of array elements. -/
def Json.renderArr : List Json → String
  | [] => ""
  | [x] => Json.render x
  | x :: xs => Json.render x ++ "," ++ Json.renderArr xs

/-- Comma-separated rendering of object fields. -/
def Json.renderObj : List (String × Json) → String
  | [] => ""
  | [(k, v)] => "\"" ++ k ++ "\":" ++ Json.render v
  | (k, v) :: fs => "\"" ++ k ++ "\":" ++ Json.render v ++ "," ++ Json.renderObj fs

end

/-- APIError from response.go: code and message of an error envelope. -/
structure APIError where
  Code : Int
  Message : String


/-- Response from response.go: the uniform envelope.  The Go fields
Data and Meta have type interface with an omitempty tag, so a nil
value (modelled as none) is omitted from the serialized output; Error
is a nullable pointer with omitempty. -/
structure Response where
  Success : Bool
  Data : Option Json
  Error : Option APIError
  Meta : Option Json


/-- JSON encoding of APIError following its struct tags. -/
def APIError.toJson (e : APIError) : Json :=
  .obj [("code", .num e.Code), ("message", .str e.Message)]

/-- The fields emitted when marshalling a Response, in struct order,
with omitempty semantics: an absent Data, Error or Meta contributes no
field at all. -/
def Response.jsonFields (r : Response) : List (String × Json) :=
  [("success", .bool r.Success)]
    ++ (match r.Data with | some d => [("data", d)] | none => [])
    ++ (match r.Error with | some e => [("error", e.toJson)] | none => [])
    ++ (match r.Meta with | some m => [("meta", m)] | none => [])

/-- JSON encoding of a Response. -/
def Response.toJson (r : Response) : Json := .obj r.jsonFields

/-- One write performed on the http.ResponseWriter by Context.JSON:
status code, content type header, and the encoded body. -/
structure WriteEvent where
  status : Nat
  contentType : String
  body : Json


/-- The per-request Context of group.go: resolved path variables
(mux.Vars), the parsed query parameters of the request URL, the
key/value store, the aborted flag, the writes performed on the
response writer so far, and the messages emitted on the application
logger during this request. -/
structure Context where
  Params : List (String × String)
  queries : List (String × String)
  store : List (String × Json)
  aborted : Bool
  written : List WriteEvent
  log : List String


/-- The Context allocated by the wrapped handler for an inbound
request: resolved path variables, parsed query, empty store, nothing
written, nothing logged. -/
def Context.fresh (params queries : List (String × String)) : Context :=
  { Params := params, queries := queries, store := [], aborted := false,
    written := [], log := [] }

/-- Context.Set: stores a value under a key, overwriting any previous
value (Go map assignment; lookup sees the newest binding). -/
def Context.Set (c : Context) (key : String) (value : Json) : Context :=
  { c with store := (key, value) :: c.store }

/-- Context.Get: returns the stored value and whether it exists,
modelled as an Option. -/
def Context.Get (c : Context) (key : String) : Option Json :=
  c.store.lookup key

/-- Result of Context.MustGet: either the value, or the panic it
raises when the key is absent. -/
inductive MustGetResult where
  | value : Json → MustGetResult
  | panicked : String → MustGetResult


/-- Context.MustGet: the value when the key exists, otherwise a panic
with the message built by fmt.Sprintf in the source. -/
def Context.MustGet (c : Context) (key : String) : MustGetResult :=
  match c.Get key with
  | some val => .value val
  | none => .panicked ("Key " ++ key ++ " does not exist in context")

/-- Context.GetParam: reads a path variable; a Go map read of a
missing key yields the zero value, the empty string. -/
def Context.GetParam (c : Context) (name : String) : String :=
  (c.Params.lookup name).getD ""

/-- Context.Query: url.Values.Get returns the value of the parameter,
or the empty string when it is absent. -/
def Context.Query (c : Context) (name : String) : String :=
  (c.queries.lookup name).getD ""

/-- Context.QueryDefault: returns the query value when it is not the
empty string, otherwise the default value. -/
def Context.QueryDefault (c : Context) (name defaultValue : String) : String :=
  let value := c.Query name
  if value ≠ "" then value else defaultValue

/-- One message emitted on the application logger (logger.Error or
logger.Info), recorded on the request for observability. -/
def Context.logError (c : Context) (msg : String) : Context :=
  { c with log := c.log ++ [msg] }

/-- Context.JSON: sets the content type, writes the status code and
the encoded body. -/
def Context.JSON (c : Context) (status : Nat) (data : Json) : Context :=
  { c with written := c.written ++ [⟨status, "application/json", data⟩] }

/-- The envelope produced by Context.Success. -/
def successEnvelope (data : Option Json) : Json :=
  Response.toJson { Success := true, Data := data, Error := none, Meta := none }

/-- Context.Success: a 200 response with the success envelope.  Data
is an interface value; a nil argument is modelled as none. -/
def Context.Success (c : Context) (data : Option Json) : Context :=
  c.JSON 200 (successEnvelope data)

/-- The envelope produced by Context.Error. -/
def errorEnvelope (status : Int) (message : String) : Json :=
  Response.toJson
    { Success := false, Data := none,
      Error := some { Code := status, Message := message }, Meta := none }

/-- Context.Error: an error response with the error envelope.  The
fmt.Sprintf formatting step is the identity here because every message
the claims mention is passed without format arguments. -/
def Context.Error (c : Context) (status : Nat) (message : String) : Context :=
  c.JSON status (errorEnvelope (status : Int) message)

/-- Result of running a handler: normal return, or a panic carrying
the panic message and the Context as mutated before the panic. -/
inductive HResult where
  | ok : Context → HResult
  | panicked : String → Context → HResult


/-- HandlerFunc from the middleware source file. -/
abbrev HandlerFunc := Context → HResult

/-- Middleware: a function from HandlerFunc to HandlerFunc. -/
abbrev Middleware := HandlerFunc → HandlerFunc

/-- The loop of Group.wrapHandler: starting from the handler, apply
the middlewares in reverse order, from the last index down to index
zero. -/
def applyMiddlewares (middlewares : List Middleware) (handler : HandlerFunc) : HandlerFunc :=
  middlewares.reverse.foldl (fun h m => m h) handler

/-- The data of one inbound request that the wrapped handler receives
from the router: the resolved path variables and the parsed query. -/
structure RequestInfo where
  params : List (String × String)
  queries : List (String × String)

/-- The transport-facing http.HandlerFunc produced by wrapHandler: it
receives the request data and produces the final Context.  Its result
type has no panic case: a panic can not propagate out of it. -/
abbrev EntryPoint := RequestInfo → Context

/-- One route registered on the router by HandleFunc: its path, its
method restriction (none when Methods was never called, following the
router library in which such a route matches every method), and the
wrapped handler stored for it. -/
structure RouteEntry where
  path : String
  methods : Option (List String)
  handler : EntryPoint

/-- Whether a registered route accepts a request of the given HTTP
method: a route with no Methods restriction matches every method, a
restricted route matches exactly the listed methods. -/
def RouteEntry.matchesMethod (e : RouteEntry) (m : String) : Bool :=
  match e.methods with
  | none => true
  | some ms => decide (m ∈ ms)

/-- App from app.go, restricted to what the claims need: the
application middleware list. -/
structure App where
  middlewares : List Middleware

/-- App.Use: appends middleware to the application list. -/
def App.Use (a : App) (middleware : List Middleware) : App :=
  { a with middlewares := a.middlewares ++ middleware }

/-- Group from group.go: its routes on the (sub)router, the parent
application, and the group middleware list. -/
structure Group where
  router : List RouteEntry
  parent : App
  middlewares : List Middleware

/-- Group.Use: appends middleware to the group list. -/
def Group.Use (g : Group) (middleware : List Middleware) : Group :=
  { g with middlewares := g.middlewares ++ middleware }

/-- A later App.Use observed through the parent pointer the group
holds: in Go the group and the application share the App value, so
appending to the application middlewares is visible as a change of
g.parent. -/
def Group.parentUse (g : Group) (middleware : List Middleware) : Group :=
  { g with parent := g.parent.Use middleware }

/-- The middleware list Group.wrapHandler combines: application
middlewares followed by group middlewares. -/
def Group.chain (g : Group) : List Middleware :=
  g.parent.middlewares ++ g.middlewares

/-- Group.wrapHandler: combines the two middleware lists, applies them
in reverse order around the handler, and returns the entry point that
allocates a fresh Context for the request, runs the composed chain,
and on a recovered panic logs it and writes the 500 error response. -/
def Group.wrapHandler (g : Group) (handler : HandlerFunc) : EntryPoint :=
  let middlewares := g.chain
  let h := applyMiddlewares middlewares handler
  fun req =>
    let ctx := Context.fresh req.params req.queries
    match h ctx with
    | .ok c => c
    | .panicked r c =>
        (c.logError ("Panic recovered: " ++ r)).Error 500 "Internal Server Error"

/-- Group.Route: wraps the action and registers it; with no methods
the route is registered unrestricted, otherwise Methods restricts it
to the given list. -/
def Group.Route (g : Group) (path : String) (action : HandlerFunc)
    (methods : List String) : Group :=
  let handler := g.wrapHandler action
  if methods.isEmpty then
    { g with router := g.router ++ [{ path := path, methods := none, handler := handler }] }
  else
    { g with router := g.router ++ [{ path := path, methods := some methods, handler := handler }] }

/-- RecoverMiddleware: runs the inner handler under a deferred recover
that, on a panic, logs the captured value and writes the 500 error
response; on a normal return it does nothing. -/
def RecoverMiddleware : Middleware :=
  fun next => fun c =>
    match next c with
    | .ok cr => .ok cr
    | .panicked r cr =>
        .ok ((cr.logError ("Panic recovered: " ++ r)).Error 500 "Internal Server Error")

/-- Instrumentation for the composition-order property: a middleware
that appends a pre marker to the log on the way in and a post marker
on the way out, the instrumented middleware the specification suggests
for observing the nesting order. -/
def markerMW (i : Nat) : Middleware :=
  fun next => fun c =>
    match next (c.logError ("pre " ++ toString i)) with
    | .ok cr => .ok (cr.logError ("post " ++ toString i))
    | .panicked r cr => .panicked r cr

/-- Instrumented terminal handler: appends a marker for the handler
itself. -/
def markerHandler : HandlerFunc :=
  fun c => .ok (c.logError "H")

/-- A handler that calls Context.MustGet on a key and continues with
the value; the panic of MustGet propagates out of the handler exactly
as a Go panic would. -/
def mustGetHandler (key : String) (cont : Json → HandlerFunc) : HandlerFunc :=
  fun c =>
    match c.MustGet key with
    | .value v => cont v c
    | .panicked r => .panicked r c

/-! ### Composition lemmas shared by the claims -/

/-- Unfolding the wrapHandler loop one middleware at a time: the first
middleware of the list is applied outermost. -/
theorem applyMiddlewares_cons (m : Middleware) (ms : List Middleware) (h : HandlerFunc) :
    applyMiddlewares (m :: ms) h = m (applyMiddlewares ms h) := by
  simp [applyMiddlewares, List.foldl_append]

/-- The wrapHandler loop over a concatenated list composes the first
list around the composition of the second. -/
theorem applyMiddlewares_append (l1 l2 : List Middleware) (h : HandlerFunc) :
    applyMiddlewares (l1 ++ l2) h = applyMiddlewares l1 (applyMiddlewares l2 h) := by
  simp [applyMiddlewares, List.foldl_append]

/-- The wrapHandler loop equals the right fold that nests the
middlewares from the last one innermost to the first one outermost. -/
theorem applyMiddlewares_eq_foldr (ms : List Middleware) (h : HandlerFunc) :
    applyMiddlewares ms h = ms.foldr (fun m k => m k) h := by
  induction ms with
  | nil => rfl
  | cons m ms ih => rw [applyMiddlewares_cons, ih]; rfl

/-- Execution trace of the instrumented chain: the pre markers appear
in list order, then the handler marker, then the post markers in
reverse order. -/
theorem marker_trace (is : List Nat) (c : Context) :
    applyMiddlewares (is.map markerMW) markerHandler c =
      .ok { c with log := c.log
              ++ is.map (fun i => "pre " ++ toString i)
              ++ ["H"]
              ++ is.reverse.map (fun i => "post " ++ toString i) } := by
  induction is generalizing c with
  | nil => simp [applyMiddlewares, markerHandler, Context.logError]
  | cons i is ih =>
      rw [List.map_cons, applyMiddlewares_cons]
      simp [markerMW, Context.logError, ih]

/-! ### Claims -/

/-- Claim C1: the composition loop of wrapHandler wraps from the last
middleware to the first, so the composed handler is the nested
application with the first middleware outermost, and invoking the
instrumented composed handler runs the pre markers in list order, then
the handler, then the post markers in reverse order. -/
theorem composed_handler_nests_in_list_order :
    (∀ (m : Middleware) (ms : List Middleware) (h : HandlerFunc),
        applyMiddlewares (m :: ms) h = m (applyMiddlewares ms h))
    ∧ (∀ (ms : List Middleware) (h : HandlerFunc),
        applyMiddlewares ms h = ms.foldr (fun m k => m k) h)
    ∧ (∀ (is : List Nat) (c : Context),
        applyMiddlewares (is.map markerMW) markerHandler c =
          .ok { c with log := c.log
                  ++ is.map (fun i => "pre " ++ toString i)
                  ++ ["H"]
                  ++ is.reverse.map (fun i => "post " ++ toString i) }) :=
  ⟨applyMiddlewares_cons, applyMiddlewares_eq_foldr, marker_trace⟩

/-- Claim C2: the effective chain wrapHandler composes is the
application middlewares followed by the group middlewares, the
application part is applied outermost, and the chain does not depend
on the routes already registered on the group. -/
theorem effective_chain_is_app_then_group :
    ∀ (g : Group) (h : HandlerFunc),
      Group.chain g = g.parent.middlewares ++ g.middlewares
      ∧ applyMiddlewares (Group.chain g) h
          = applyMiddlewares g.parent.middlewares (applyMiddlewares g.middlewares h)
      ∧ (∀ r : List RouteEntry, Group.chain { g with router := r } = Group.chain g) :=
  fun g h =>
    ⟨rfl, applyMiddlewares_append g.parent.middlewares g.middlewares h, fun _ => rfl⟩

/-- Claim C6: Route snapshots the chain: the entry it registers wraps
the action with the lists as they are at registration time, and later
Use calls on the group or on the application leave the already
registered routes unchanged. -/
theorem route_chain_snapshot :
    ∀ (g : Group) (p : String) (a : HandlerFunc) (ms : List String)
      (eg ea : List Middleware),
      ((g.Route p a ms).Use eg).router = (g.Route p a ms).router
      ∧ ((g.Route p a ms).parentUse ea).router = (g.Route p a ms).router
      ∧ (((g.Route p a ms).Use eg).parentUse ea).router = (g.Route p a ms).router
      ∧ (g.Route p a ms).router
          = g.router ++ [{ path := p,
                           methods := if ms.isEmpty then none else some ms,
                           handler := g.wrapHandler a }] := by
  intro g p a ms eg ea
  refine ⟨rfl, rfl, rfl, ?_⟩
  by_cases hm : ms.isEmpty <;> simp [Group.Route, hm]

/-- Claim C3: the entry point allocates a fresh Context with the
resolved path variables and an empty store, returns the chain result
on a normal run, and on a panic anywhere in the chain logs it and
writes the 500 error response instead of letting the panic escape. -/
theorem entry_point_fresh_context_and_guard :
    ∀ (g : Group) (action : HandlerFunc) (req : RequestInfo),
      ((Context.fresh req.params req.queries).store = []
        ∧ (Context.fresh req.params req.queries).written = []
        ∧ (Context.fresh req.params req.queries).log = []
        ∧ (Context.fresh req.params req.queries).Params = req.params)
      ∧ (∀ cr,
          applyMiddlewares g.chain action (Context.fresh req.params req.queries) = .ok cr →
          g.wrapHandler action req = cr)
      ∧ (∀ r cr,
          applyMiddlewares g.chain action (Context.fresh req.params req.queries)
              = .panicked r cr →
          g.wrapHandler action req
              = (cr.logError ("Panic recovered: " ++ r)).Error 500 "Internal Server Error"
          ∧ (g.wrapHandler action req).written
              = cr.written
                  ++ [⟨500, "application/json", errorEnvelope 500 "Internal Server Error"⟩]
          ∧ (g.wrapHandler action req).log = cr.log ++ ["Panic recovered: " ++ r]) := by
  intro g action req
  refine ⟨⟨rfl, rfl, rfl, rfl⟩, ?_, ?_⟩
  · intro cr hcr
    simp [Group.wrapHandler, hcr]
  · intro r cr hcr
    refine ⟨?_, ?_, ?_⟩ <;>
      simp [Group.wrapHandler, hcr, Context.Error, Context.JSON, Context.logError]

/-- A terminal handler that always panics, used to exercise the panic
paths at concrete inputs. -/
def panicAction : HandlerFunc := fun c => .panicked "boom" c

/-- A group with no middleware on either list, on an application with
no middleware. -/
def emptyGroup : Group :=
  { router := [], parent := { middlewares := [] }, middlewares := [] }

/-- A request with no path variables and no query parameters. -/
def emptyRequest : RequestInfo := { params := [], queries := [] }

/-- Concrete instance of the entry point guard: a bare panicking
handler on a middleware-free group yields the logged 500 response. -/
theorem entry_point_fresh_context_and_guard_witness :
    emptyGroup.wrapHandler panicAction emptyRequest
      = ((Context.fresh [] []).logError "Panic recovered: boom").Error
          500 "Internal Server Error" :=
  ((entry_point_fresh_context_and_guard emptyGroup panicAction emptyRequest).2.2
      "boom" (Context.fresh [] []) rfl).1

/-- Claim C4: RecoverMiddleware passes a normal result through
unchanged and writes nothing, while a panic of the inner handler is
caught at this layer, logged, and turned into the 500 response whose
serialized envelope is exactly the documented one. -/
theorem recover_middleware_spec :
    ∀ (next : HandlerFunc) (c : Context),
      (∀ cr, next c = .ok cr → RecoverMiddleware next c = .ok cr)
      ∧ (∀ r cr, next c = .panicked r cr →
          RecoverMiddleware next c
              = .ok ((cr.logError ("Panic recovered: " ++ r)).Error
                  500 "Internal Server Error")
          ∧ ((cr.logError ("Panic recovered: " ++ r)).Error
                  500 "Internal Server Error").written
              = cr.written
                  ++ [⟨500, "application/json", errorEnvelope 500 "Internal Server Error"⟩]
          ∧ Json.render (errorEnvelope 500 "Internal Server Error")
              = "\x7b\"success\":false,\"error\":\x7b\"code\":500,\"message\":\"Internal Server Error\"\x7d\x7d") := by
  intro next c
  constructor
  · intro cr hcr
    simp [RecoverMiddleware, hcr]
  · intro r cr hcr
    refine ⟨?_, ?_, ?_⟩
    · simp [RecoverMiddleware, hcr]
    · simp [Context.Error, Context.JSON, Context.logError]
    · rfl

/-- Concrete instance of the recovery contract: the always-panicking
handler under RecoverMiddleware produces the logged 500 result. -/
theorem recover_middleware_spec_witness :
    RecoverMiddleware panicAction (Context.fresh [] [])
      = .ok (((Context.fresh [] []).logError "Panic recovered: boom").Error
          500 "Internal Server Error") :=
  ((recover_middleware_spec panicAction (Context.fresh [] [])).2
      "boom" (Context.fresh [] []) rfl).1

/-- Claim C7: MustGet returns the stored value when the key exists and
panics with the documented message when it does not, and that panic is
caught by an enclosing RecoverMiddleware, which converts it into the
logged 500 response. -/
theorem must_get_spec :
    ∀ (c : Context) (k : String),
      (∀ v, c.Get k = some v → c.MustGet k = .value v)
      ∧ (c.Get k = none →
          c.MustGet k = .panicked ("Key " ++ k ++ " does not exist in context"))
      ∧ (∀ cont : Json → HandlerFunc, c.Get k = none →
          RecoverMiddleware (mustGetHandler k cont) c
            = .ok ((c.logError
                ("Panic recovered: " ++ ("Key " ++ k ++ " does not exist in context"))).Error
                500 "Internal Server Error")) := by
  intro c k
  refine ⟨?_, ?_, ?_⟩
  · intro v hv
    simp [Context.MustGet, hv]
  · intro hn
    simp [Context.MustGet, hn]
  · intro cont hn
    simp [RecoverMiddleware, mustGetHandler, Context.MustGet, hn]

/-- Concrete instance of the MustGet contract: reading an absent key
under RecoverMiddleware yields the logged 500 result. -/
theorem must_get_spec_witness :
    RecoverMiddleware (mustGetHandler "user" (fun _ => fun c => .ok c))
        (Context.fresh [] [])
      = .ok (((Context.fresh [] []).logError
          "Panic recovered: Key user does not exist in context").Error
          500 "Internal Server Error") :=
  (must_get_spec (Context.fresh [] []) "user").2.2 (fun _ => fun c => .ok c) rfl

/-- Claim C8: Success writes the envelope containing only the success
flag and the data field, and in general a Response serializes a data,
error or meta field exactly when the corresponding value is present. -/
theorem success_envelope_omits_empty_fields :
    ∀ (c : Context) (d : Json) (r : Response),
      (c.Success (some d)).written
          = c.written
              ++ [⟨200, "application/json",
                    .obj [("success", .bool true), ("data", d)]⟩]
      ∧ ("success" ∈ r.jsonFields.map Prod.fst)
      ∧ (("data" ∈ r.jsonFields.map Prod.fst) ↔ r.Data ≠ none)
      ∧ (("error" ∈ r.jsonFields.map Prod.fst) ↔ r.Error ≠ none)
      ∧ (("meta" ∈ r.jsonFields.map Prod.fst) ↔ r.Meta ≠ none) := by
  intro c d r
  refine ⟨?_, ?_, ?_, ?_, ?_⟩
  · simp [Context.Success, Context.JSON, successEnvelope, Response.toJson,
      Response.jsonFields]
  all_goals
    cases hd : r.Data <;> cases he : r.Error <;> cases hm : r.Meta <;>
      simp [Response.jsonFields, hd, he, hm]

/-- Claim C9 counterexample: a query parameter that is present with an
empty value is reachable, and QueryDefault returns the fallback there
instead of the present value. -/
def emptyValuedQueryCtx : Context := Context.fresh [] [("a", "")]

/-- Claim C9 as stated fails: on a request whose query holds the
parameter a with the empty value, QueryDefault returns the fallback,
not the present value. -/
theorem query_default_counterexample :
    emptyValuedQueryCtx.queries.lookup "a" = some ""
    ∧ emptyValuedQueryCtx.QueryDefault "a" "fallback" = "fallback"
    ∧ ("fallback" : String) ≠ "" := by
  refine ⟨rfl, rfl, by decide⟩

/-- Claim C9 amended: the accessors are pure functions of the Context;
GetParam and Query return the stored value when the name is present
and the empty string when absent, and QueryDefault returns the query
value when that value is non-empty and the fallback when the
parameter is absent or its value is the empty string. -/
theorem query_accessors_spec :
    ∀ (c : Context) (name d : String),
      (c.queries.lookup name = none → c.Query name = "")
      ∧ (∀ v, c.queries.lookup name = some v → c.Query name = v)
      ∧ (c.Query name ≠ "" → c.QueryDefault name d = c.Query name)
      ∧ (c.Query name = "" → c.QueryDefault name d = d)
      ∧ (c.Params.lookup name = none → c.GetParam name = "")
      ∧ (∀ v, c.Params.lookup name = some v → c.GetParam name = v) := by
  intro c name d
  refine ⟨?_, ?_, ?_, ?_, ?_, ?_⟩
  · intro hn; simp [Context.Query, hn]
  · intro v hv; simp [Context.Query, hv]
  · intro hne; simp [Context.QueryDefault, hne]
  · intro he; simp [Context.QueryDefault, he]
  · intro hn; simp [Context.GetParam, hn]
  · intro v hv; simp [Context.GetParam, hv]

/-- Concrete instance of the accessor contract: a present non-empty
query value is returned by Query and by QueryDefault, and a missing
path variable reads as the empty string. -/
theorem query_accessors_spec_witness :
    (Context.fresh [("id", "7")] [("a", "v")]).Query "a" = "v"
    ∧ (Context.fresh [("id", "7")] [("a", "v")]).QueryDefault "a" "d" = "v"
    ∧ (Context.fresh [("id", "7")] [("a", "v")]).GetParam "missing" = "" := by
  refine ⟨?_, ?_, ?_⟩
  · exact (query_accessors_spec (Context.fresh [("id", "7")] [("a", "v")]) "a" "d").2.1
      "v" rfl
  · have h := (query_accessors_spec (Context.fresh [("id", "7")] [("a", "v")]) "a" "d").2.2.1
      (by decide)
    simpa using h
  · exact (query_accessors_spec (Context.fresh [("id", "7")] [("a", "v")]) "missing" "d").2.2.2.2.1
      rfl

/-- Claim C10: Route with no methods registers the wrapped handler
unrestricted, so the entry matches every method, and Route with a
non-empty method list registers the entry restricted to exactly those
methods. -/
theorem route_methods_spec :
    ∀ (g : Group) (p : String) (a : HandlerFunc) (ms : List String) (m : String),
      (ms = [] →
        (g.Route p a ms).router
            = g.router
                ++ [{ path := p, methods := none, handler := g.wrapHandler a }]
        ∧ RouteEntry.matchesMethod
            { path := p, methods := none, handler := g.wrapHandler a } m = true)
      ∧ (ms ≠ [] →
        (g.Route p a ms).router
            = g.router
                ++ [{ path := p, methods := some ms, handler := g.wrapHandler a }]
        ∧ (RouteEntry.matchesMethod
              { path := p, methods := some ms, handler := g.wrapHandler a } m = true
            ↔ m ∈ ms)) := by
  intro g p a ms m
  constructor
  · intro he
    subst he
    exact ⟨rfl, rfl⟩
  · intro hne
    have hm : ms.isEmpty = false := by
      cases ms with
      | nil => exact absurd rfl hne
      | cons x xs => rfl
    refine ⟨by simp [Group.Route, hm], ?_⟩
    simp [RouteEntry.matchesMethod]

/-- Concrete instance of the method registration contract: a route
with no methods matches POST, and a route restricted to GET matches
exactly GET. -/
theorem route_methods_spec_witness :
    ((emptyGroup.Route "/x" panicAction []).router
        = [{ path := "/x", methods := none, handler := emptyGroup.wrapHandler panicAction }]
      ∧ RouteEntry.matchesMethod
          { path := "/x", methods := none, handler := emptyGroup.wrapHandler panicAction }
          "POST" = true)
    ∧ ((emptyGroup.Route "/y" panicAction ["GET"]).router
        = [{ path := "/y", methods := some ["GET"],
             handler := emptyGroup.wrapHandler panicAction }]
      ∧ (RouteEntry.matchesMethod
           { path := "/y", methods := some ["GET"],
             handler := emptyGroup.wrapHandler panicAction } "GET" = true
          ↔ "GET" ∈ (["GET"] : List String))) :=
  ⟨(route_methods_spec emptyGroup "/x" panicAction [] "POST").1 rfl,
   (route_methods_spec emptyGroup "/y" panicAction ["GET"] "GET").2 (by decide)⟩

end GoWeb
